import Mathlib

/-!
Verification development for the resource-agent command/state-machine core
of the coi-services repository, shallowly embedded from
src/agent_refactor/agent.py.  The generic FSM engine (InstrumentFSM,
FSMStateError) and the BaseEnum helper live outside the provided sources,
so those parts are modelled from the specification text; everything in the
ResourceAgent and ResourceAgentClient classes is translated directly from
the python source.
-/

set_option autoImplicit false

/-- Capability type tags, from the external interface objects.  Only the
agent-level tags AGT_CMD and AGT_PAR are used by the embedded code. -/
inductive CapabilityType where
  | AGT_CMD
  | AGT_PAR
deriving DecidableEq, Repr

/-- AgentCapability object: a capability name together with its type tag. -/
structure AgentCapability where
  name : String
  cap_type : CapabilityType
deriving DecidableEq, Repr

/-- Dynamic python values passed through the agent and the FSM: command
arguments, handler results and capability payloads. -/
inductive Value where
  | vnone
  | vbool (b : Bool)
  | vnat (n : Nat)
  | vstr (s : String)
  | vlist (l : List Value)
  | vcap (c : AgentCapability)
deriving Repr

/-- The list extension used by caps.extend(resource_caps): a python list
value contributes its items, any other value contributes itself. -/
def Value.toItems : Value → List Value
  | .vlist l => l
  | v => [v]

/-- ResourceAgentState: the eleven common agent states, each carrying the
string constant defined in the source (note the source typo RESOUCE in the
DIRECT_ACCESS value, kept verbatim). -/
inductive ResourceAgentState where
  | POWERED_DOWN
  | UNINITIALIZED
  | INACTIVE
  | IDLE
  | STOPPED
  | COMMAND
  | STREAMING
  | TEST
  | CALIBRATE
  | DIRECT_ACCESS
  | BUSY
deriving DecidableEq, Repr

/-- The string value of each ResourceAgentState member, verbatim from the
source. -/
def ResourceAgentState.str : ResourceAgentState → String
  | .POWERED_DOWN => "RESOURCE_AGENT_STATE_POWERED_DOWN"
  | .UNINITIALIZED => "RESOURCE_AGENT_STATE_UNINITIALIZED"
  | .INACTIVE => "RESOURCE_AGENT_STATE_INACTIVE"
  | .IDLE => "RESOURCE_AGENT_STATE_IDLE"
  | .STOPPED => "RESOURCE_AGENT_STATE_STOPPED"
  | .COMMAND => "RESOURCE_AGENT_STATE_COMMAND"
  | .STREAMING => "RESOURCE_AGENT_STATE_STREAMING"
  | .TEST => "RESOURCE_AGENT_STATE_TEST"
  | .CALIBRATE => "RESOURCE_AGENT_STATE_CALIBRATE"
  | .DIRECT_ACCESS => "RESOUCE_AGENT_STATE_DIRECT_ACCESS"
  | .BUSY => "RESOURCE_AGENT_STATE_BUSY"

/-- The list of all eleven state members in source declaration order. -/
def ResourceAgentState.all : List ResourceAgentState :=
  [.POWERED_DOWN, .UNINITIALIZED, .INACTIVE, .IDLE, .STOPPED, .COMMAND,
   .STREAMING, .TEST, .CALIBRATE, .DIRECT_ACCESS, .BUSY]

/-- The state value strings, the enumeration vocabulary handed to the FSM. -/
def ResourceAgentState.values : List String :=
  ResourceAgentState.all.map ResourceAgentState.str

/-- Modelled from the spec: BaseEnum.has (defined outside the provided
sources) is the membership test of the closed state enumeration, used by
the constructor to validate an explicitly supplied initial state. -/
def ResourceAgentState.has (s : String) : Bool :=
  ResourceAgentState.values.contains s

/-- ResourceAgentEvent: the common agent events, each carrying the string
constant defined in the source. -/
inductive ResourceAgentEvent where
  | ENTER
  | EXIT
  | POWER_UP
  | POWER_DOWN
  | INITIALIZE
  | RESET
  | GO_ACTIVE
  | GO_INACTIVE
  | RUN
  | CLEAR
  | PAUSE
  | RESUME
  | GO_COMMAND
  | GO_DIRECT_ACCESS
  | GET_RESOURCE
  | SET_RESOURCE
  | EXECUTE_RESOURCE
  | GET_RESOURCE_STATE
  | GET_RESOURCE_CAPABILITIES
deriving DecidableEq, Repr

/-- The string value of each ResourceAgentEvent member, verbatim from the
source. -/
def ResourceAgentEvent.str : ResourceAgentEvent → String
  | .ENTER => "RESOURCE_AGENT_EVENT_ENTER"
  | .EXIT => "RESOURCE_AGENT_EVENT_EXIT"
  | .POWER_UP => "RESOURCE_AGENT_EVENT_POWER_UP"
  | .POWER_DOWN => "RESOURCE_AGENT_EVENT_POWER_DOWN"
  | .INITIALIZE => "RESOURCE_AGENT_EVENT_INITIALIZE"
  | .RESET => "RESOURCE_AGENT_EVENT_RESET"
  | .GO_ACTIVE => "RESOURCE_AGENT_EVENT_GO_ACTIVE"
  | .GO_INACTIVE => "RESOURCE_AGENT_EVENT_GO_INACTIVE"
  | .RUN => "RESOURCE_AGENT_EVENT_RUN"
  | .CLEAR => "RESOURCE_AGENT_EVENT_CLEAR"
  | .PAUSE => "RESOURCE_AGENT_EVENT_PAUSE"
  | .RESUME => "RESOURCE_AGENT_EVENT_RESUME"
  | .GO_COMMAND => "RESOURCE_AGENT_EVENT_GO_COMMAND"
  | .GO_DIRECT_ACCESS => "RESOURCE_AGENT_EVENT_GO_DIRECT_ACCESS"
  | .GET_RESOURCE => "RESOURCE_AGENT_EVENT_GET_RESOURCE"
  | .SET_RESOURCE => "RESOURCE_AGENT_EVENT_SET_RESOURCE"
  | .EXECUTE_RESOURCE => "RESOURCE_AGENT_EVENT_EXECUTE_RESOURCE"
  | .GET_RESOURCE_STATE => "RESOURCE_AGENT_EVENT_GET_RESOURCE_STATE"
  | .GET_RESOURCE_CAPABILITIES => "RESOURCE_AGENT_EVENT_GET_RESOURCE_CAPABILITIES"

/-- The list of all event members in source declaration order. -/
def ResourceAgentEvent.all : List ResourceAgentEvent :=
  [.ENTER, .EXIT, .POWER_UP, .POWER_DOWN, .INITIALIZE, .RESET, .GO_ACTIVE,
   .GO_INACTIVE, .RUN, .CLEAR, .PAUSE, .RESUME, .GO_COMMAND,
   .GO_DIRECT_ACCESS, .GET_RESOURCE, .SET_RESOURCE, .EXECUTE_RESOURCE,
   .GET_RESOURCE_STATE, .GET_RESOURCE_CAPABILITIES]

/-- The event value strings, the event vocabulary handed to the FSM. -/
def ResourceAgentEvent.values : List String :=
  ResourceAgentEvent.all.map ResourceAgentEvent.str

/-- Outcome of invoking a registered handler: its return value, an optional
next state when the handler defines a transition, and the observability
records it emits. -/
structure HandlerOut where
  result : Value
  next : Option String
  log : List String

/-- A registered handler.  The first argument is the current state the
handler observes through get_current_state at invocation time, then the
positional arguments and the keyword arguments of the dispatched event. -/
def Handler : Type :=
  String → List Value → List (String × Value) → HandlerOut

/-- Modelled from the spec: FSMStateError, the engine error raised by
on_event when the current state has no handler for the event, carrying a
descriptive message naming the offending state and event. -/
structure FSMStateError where
  args : List String
deriving DecidableEq, Repr

/-- Modelled from the spec: the diagnostic text of an FSMStateError names
the offending event and state. -/
def fsmDiag (state event : String) : List String :=
  ["Command " ++ event ++ " not handled in state " ++ state]

/-- Modelled from the spec: the InstrumentFSM engine state.  It owns the
enumeration vocabulary, the designated ENTER/EXIT event identifiers, the
transition table mapping (state, event) to a single handler, and the single
current-state cursor (the empty string models the cursor before start). -/
structure InstrumentFSM where
  states : List String
  events : List String
  enter_event : String
  exit_event : String
  handlers : List ((String × String) × Handler)
  current : String

/-- Modelled from the spec: the InstrumentFSM constructor takes the state
and event vocabularies and the sentinel enter and exit events; the table
starts empty and the cursor unset. -/
def mkInstrumentFSM (states events : List String) (enter_event exit_event : String) :
    InstrumentFSM :=
  { states := states, events := events, enter_event := enter_event,
    exit_event := exit_event, handlers := [], current := "" }

/-- Store a handler under a (state, event) key: overwrite the existing
entry for the key when present, append otherwise (last write wins). -/
def setHandlerEntry (l : List ((String × String) × Handler))
    (k : String × String) (h : Handler) : List ((String × String) × Handler) :=
  match l with
  | [] => [(k, h)]
  | p :: rest =>
    if p.1 == k then (k, h) :: rest else p :: setHandlerEntry rest k h

/-- Modelled from the spec: add_handler registers a handler for exactly one
(state, event) pair; re-registration for the same pair overwrites silently. -/
def InstrumentFSM.add_handler (fsm : InstrumentFSM) (state event : String)
    (h : Handler) : InstrumentFSM :=
  { fsm with handlers := setHandlerEntry fsm.handlers (state, event) h }

/-- Modelled from the spec: get_current_state returns the current state, a
pure read with no side effects. -/
def InstrumentFSM.get_current_state (fsm : InstrumentFSM) : String :=
  fsm.current

/-- Modelled from the spec: get_events returns the set of events with a
registered handler, either only those valid for the current state or the
full registered vocabulary. -/
def InstrumentFSM.get_events (fsm : InstrumentFSM) (current_state_only : Bool) :
    List String :=
  let entries :=
    if current_state_only then
      fsm.handlers.filter (fun p => p.1.1 == fsm.current)
    else
      fsm.handlers
  (entries.map (fun p => p.1.2)).eraseDups

/-- Update the current-state cursor when a handler defines a transition. -/
def InstrumentFSM.transitionTo (fsm : InstrumentFSM) : Option String → InstrumentFSM
  | none => fsm
  | some s => { fsm with current := s }

/-- Modelled from the spec: start sets the current state without validating
a prior transition and fires the ENTER handler of the initial state if one
is registered; the hook only emits observability records, returned here. -/
def InstrumentFSM.start (fsm : InstrumentFSM) (initial_state : String) :
    InstrumentFSM × List String :=
  let fsm2 : InstrumentFSM := { fsm with current := initial_state }
  match List.lookup (initial_state, fsm.enter_event) fsm.handlers with
  | none => (fsm2, [])
  | some h => (fsm2, (h initial_state [] []).log)

/-- Modelled from the spec: on_event looks up (current state, event).  If
absent it fails with an FSMStateError naming the offending state and event,
leaving the cursor unchanged; if present it invokes the handler with the
supplied arguments and returns its result unchanged.  When the handler
defines a transition the engine invokes the EXIT hook of the old state (if
registered), updates the cursor, then invokes the ENTER hook of the new
state (if registered), all before returning; the hooks only contribute
observability records, collected in the third component. -/
def InstrumentFSM.on_event (fsm : InstrumentFSM) (event : String)
    (args : List Value) (kwargs : List (String × Value)) :
    Except FSMStateError (Value × InstrumentFSM × List String) :=
  match List.lookup (fsm.current, event) fsm.handlers with
  | none => .error { args := fsmDiag fsm.current event }
  | some h =>
    let out := h fsm.current args kwargs
    match out.next with
    | none => .ok (out.result, fsm, out.log)
    | some s2 =>
      let exit_log :=
        match List.lookup (fsm.current, fsm.exit_event) fsm.handlers with
        | none => []
        | some hx => (hx fsm.current args kwargs).log
      let fsm2 : InstrumentFSM := { fsm with current := s2 }
      let enter_log :=
        match List.lookup (s2, fsm.enter_event) fsm.handlers with
        | none => []
        | some he => (he s2 args kwargs).log
      .ok (out.result, fsm2, out.log ++ exit_log ++ enter_log)

/-- Caller-facing ION error signals raised by the embedded code: BadRequest
for invalid input, Conflict re-signalling an FSM rejection, the raw
FSMStateError when it propagates untranslated, NotFound from client side
resolution, and a plain python assertion failure. -/
inductive AgentErr where
  | badRequest (msg : String)
  | conflict (args : List String)
  | fsmStateError (args : List String)
  | notFound (msg : String)
  | assertionError (msg : String)
deriving DecidableEq, Repr

/-- Command envelope consumed by execute_agent and execute_resource:
correlation id, command name, positional args and keyword args. -/
structure AgentCommand where
  command_id : String
  command : String
  args : List Value
  kwargs : List (String × Value)

/-- AgentCommandResult envelope produced by execute_agent and
execute_resource: correlation id, command name, execution timestamp,
integer status (0 nominal) and the result payload once assigned. -/
structure AgentCommandResult where
  command_id : String
  command : String
  ts_execute : String
  status : Int
  result : Option Value

/-- The ResourceAgent instance as the embedded operations see it: the
process id used in observability records, and its single FSM. -/
structure ResourceAgentModel where
  id : String
  fsm : InstrumentFSM

/-- Embeds _common_state_enter: read the current state and emit an
observability record naming the agent and the state entered; no result, no
transition. -/
def common_state_enter (agent_id : String) : Handler :=
  fun state _args _kwargs =>
    { result := Value.vnone, next := none,
      log := ["Resource agent " ++ agent_id ++ " entered state: " ++ state] }

/-- Embeds _common_state_exit: read the current state and emit an
observability record naming the agent and the state left; no result, no
transition. -/
def common_state_exit (agent_id : String) : Handler :=
  fun state _args _kwargs =>
    { result := Value.vnone, next := none,
      log := ["Resource agent " ++ agent_id ++ " leaving state: " ++ state] }

/-- Embeds the per-state _handler_X_enter methods, each of which delegates
to _common_state_enter. -/
def state_enter_handler (agent_id : String) : Handler :=
  fun state args kwargs => common_state_enter agent_id state args kwargs

/-- Embeds the per-state _handler_X_exit methods, each of which delegates
to _common_state_exit. -/
def state_exit_handler (agent_id : String) : Handler :=
  fun state args kwargs => common_state_exit agent_id state args kwargs

/-- Embeds _construct_fsm: build the InstrumentFSM over the state and event
vocabularies with the sentinel ENTER/EXIT events, then register, for each
of the eleven states in source order, the enter and exit handlers. -/
def construct_fsm (agent_id : String) : InstrumentFSM :=
  let fsm := mkInstrumentFSM ResourceAgentState.values ResourceAgentEvent.values
      ResourceAgentEvent.ENTER.str ResourceAgentEvent.EXIT.str
  let fsm := fsm.add_handler ResourceAgentState.UNINITIALIZED.str
      ResourceAgentEvent.ENTER.str (state_enter_handler agent_id)
  let fsm := fsm.add_handler ResourceAgentState.UNINITIALIZED.str
      ResourceAgentEvent.EXIT.str (state_exit_handler agent_id)
  let fsm := fsm.add_handler ResourceAgentState.POWERED_DOWN.str
      ResourceAgentEvent.ENTER.str (state_enter_handler agent_id)
  let fsm := fsm.add_handler ResourceAgentState.POWERED_DOWN.str
      ResourceAgentEvent.EXIT.str (state_exit_handler agent_id)
  let fsm := fsm.add_handler ResourceAgentState.INACTIVE.str
      ResourceAgentEvent.ENTER.str (state_enter_handler agent_id)
  let fsm := fsm.add_handler ResourceAgentState.INACTIVE.str
      ResourceAgentEvent.EXIT.str (state_exit_handler agent_id)
  let fsm := fsm.add_handler ResourceAgentState.IDLE.str
      ResourceAgentEvent.ENTER.str (state_enter_handler agent_id)
  let fsm := fsm.add_handler ResourceAgentState.IDLE.str
      ResourceAgentEvent.EXIT.str (state_exit_handler agent_id)
  let fsm := fsm.add_handler ResourceAgentState.STOPPED.str
      ResourceAgentEvent.ENTER.str (state_enter_handler agent_id)
  let fsm := fsm.add_handler ResourceAgentState.STOPPED.str
      ResourceAgentEvent.EXIT.str (state_exit_handler agent_id)
  let fsm := fsm.add_handler ResourceAgentState.COMMAND.str
      ResourceAgentEvent.ENTER.str (state_enter_handler agent_id)
  let fsm := fsm.add_handler ResourceAgentState.COMMAND.str
      ResourceAgentEvent.EXIT.str (state_exit_handler agent_id)
  let fsm := fsm.add_handler ResourceAgentState.STREAMING.str
      ResourceAgentEvent.ENTER.str (state_enter_handler agent_id)
  let fsm := fsm.add_handler ResourceAgentState.STREAMING.str
      ResourceAgentEvent.EXIT.str (state_exit_handler agent_id)
  let fsm := fsm.add_handler ResourceAgentState.TEST.str
      ResourceAgentEvent.ENTER.str (state_enter_handler agent_id)
  let fsm := fsm.add_handler ResourceAgentState.TEST.str
      ResourceAgentEvent.EXIT.str (state_exit_handler agent_id)
  let fsm := fsm.add_handler ResourceAgentState.CALIBRATE.str
      ResourceAgentEvent.ENTER.str (state_enter_handler agent_id)
  let fsm := fsm.add_handler ResourceAgentState.CALIBRATE.str
      ResourceAgentEvent.EXIT.str (state_exit_handler agent_id)
  let fsm := fsm.add_handler ResourceAgentState.DIRECT_ACCESS.str
      ResourceAgentEvent.ENTER.str (state_enter_handler agent_id)
  let fsm := fsm.add_handler ResourceAgentState.DIRECT_ACCESS.str
      ResourceAgentEvent.EXIT.str (state_exit_handler agent_id)
  let fsm := fsm.add_handler ResourceAgentState.BUSY.str
      ResourceAgentEvent.ENTER.str (state_enter_handler agent_id)
  let fsm := fsm.add_handler ResourceAgentState.BUSY.str
      ResourceAgentEvent.EXIT.str (state_exit_handler agent_id)
  fsm

/-- Embeds the initial-state selection of the ResourceAgent constructor.
The argument is the initial_state keyword argument when supplied.  The
result is the value of the _initial_state attribute after the constructor
runs: none models the attribute never being assigned.  In the source, when
initial_state is supplied the attribute is set only if the value passes the
enumeration membership test; the else branch assigning the UNINITIALIZED
default belongs to the outer membership-in-kwargs test, so an unrecognized
supplied value leaves the attribute unassigned. -/
def select_initial_state (kwargs_initial_state : Option String) : Option String :=
  match kwargs_initial_state with
  | some s => if ResourceAgentState.has s then some s else none
  | none => some ResourceAgentState.UNINITIALIZED.str

/-- Embeds get_agent_state: return the current common FSM state. -/
def get_agent_state (a : ResourceAgentModel) : String :=
  a.fsm.get_current_state

/-- Embeds get_capabilities: collect the agent-level commands from the FSM
event vocabulary (filtered to the current state when requested) tagged
AGT_CMD, the agent-level parameters from the hard-coded empty list tagged
AGT_PAR, then ask the FSM for resource capabilities via the
GET_RESOURCE_CAPABILITIES event; an FSMStateError from that dispatch makes
the resource capabilities the empty list.  Returns the capability list and
the FSM after the dispatch. -/
def get_capabilities (a : ResourceAgentModel) (current_state : Bool) :
    List Value × InstrumentFSM :=
  let agent_cmds := a.fsm.get_events current_state
  let agent_caps := agent_cmds.map
      (fun item => Value.vcap { name := item, cap_type := CapabilityType.AGT_CMD })
  let agent_params : List String := []
  let param_caps := agent_params.map
      (fun item => Value.vcap { name := item, cap_type := CapabilityType.AGT_PAR })
  let agent_caps := agent_caps ++ param_caps
  match a.fsm.on_event ResourceAgentEvent.GET_RESOURCE_CAPABILITIES.str []
      [("current_state", Value.vbool current_state)] with
  | .error _ => (agent_caps ++ [], a.fsm)
  | .ok (r, fsm1, _) => (agent_caps ++ r.toItems, fsm1)

/-- Embeds execute_agent: reject a missing command or an empty command name
with BadRequest; otherwise build the AgentCommandResult stamped with the
current timestamp (passed as the now argument, standing for get_ion_ts)
and status 0, dispatch the command name as the FSM event with the command
args and kwargs, store the handler return value in the result payload, and
re-signal an FSMStateError as Conflict with the same args. -/
def execute_agent (a : ResourceAgentModel) (now : String)
    (command : Option AgentCommand) :
    Except AgentErr (AgentCommandResult × InstrumentFSM) :=
  match command with
  | none => .error (.badRequest "Execute argument \"command\" not set.")
  | some c =>
    if c.command = "" then .error (.badRequest "Command name not set.")
    else
      let cmd_result : AgentCommandResult :=
        { command_id := c.command_id, command := c.command,
          ts_execute := now, status := 0, result := none }
      let cmd := c.command
      let args := c.args
      let kwargs := c.kwargs
      match a.fsm.on_event cmd args kwargs with
      | .error e => .error (.conflict e.args)
      | .ok (r, fsm1, _) => .ok ({ cmd_result with result := some r }, fsm1)

/-- Embeds get_resource: dispatch the GET_RESOURCE event with params as the
single positional argument, re-signal an FSMStateError as Conflict, discard
the handler result and return None (vnone). -/
def get_resource (a : ResourceAgentModel) (params : Value) :
    Except AgentErr (Value × InstrumentFSM) :=
  match a.fsm.on_event ResourceAgentEvent.GET_RESOURCE.str [params] [] with
  | .error e => .error (.conflict e.args)
  | .ok (_, fsm1, _) => .ok (Value.vnone, fsm1)

/-- Embeds set_resource: dispatch the SET_RESOURCE event with params as the
single positional argument, return the handler result, and re-signal an
FSMStateError as Conflict. -/
def set_resource (a : ResourceAgentModel) (params : Value) :
    Except AgentErr (Value × InstrumentFSM) :=
  match a.fsm.on_event ResourceAgentEvent.SET_RESOURCE.str [params] [] with
  | .error e => .error (.conflict e.args)
  | .ok (r, fsm1, _) => .ok (r, fsm1)

/-- Embeds get_resource_state: dispatch the GET_RESOURCE_STATE event with
no arguments and return the handler result; there is no surrounding
try/except, so an FSMStateError propagates raw, untranslated. -/
def get_resource_state (a : ResourceAgentModel) :
    Except AgentErr (Value × InstrumentFSM) :=
  match a.fsm.on_event ResourceAgentEvent.GET_RESOURCE_STATE.str [] [] with
  | .error e => .error (.fsmStateError e.args)
  | .ok (r, fsm1, _) => .ok (r, fsm1)

/-- Embeds execute_resource: reject a missing command or an empty command
name with BadRequest; otherwise build the AgentCommandResult from the
command id and name, stamp ts_execute with the current timestamp (the now
argument, standing for get_ion_ts; status 0 is the envelope default),
dispatch the EXECUTE_RESOURCE event with the command name as first
positional argument followed by the command args and kwargs, store the
handler return value in the result payload, and re-signal an FSMStateError
as Conflict with the same args. -/
def execute_resource (a : ResourceAgentModel) (now : String)
    (command : Option AgentCommand) :
    Except AgentErr (AgentCommandResult × InstrumentFSM) :=
  match command with
  | none => .error (.badRequest "Execute argument \"command\" not set.")
  | some c =>
    if c.command = "" then .error (.badRequest "Command name not set.")
    else
      let cmd_id := c.command_id
      let cmd_name := c.command
      let cmd_result : AgentCommandResult :=
        { command_id := cmd_id, command := cmd_name,
          ts_execute := now, status := 0, result := none }
      match a.fsm.on_event ResourceAgentEvent.EXECUTE_RESOURCE.str
          (Value.vstr cmd_name :: c.args) c.kwargs with
      | .error e => .error (.conflict e.args)
      | .ok (r, fsm1, _) => .ok ({ cmd_result with result := some r }, fsm1)

/-- A registration found by the directory lookup: the stored key is the
agent process id. -/
structure AgentProcEntry where
  key : String
deriving DecidableEq, Repr

/-- Embeds ResourceAgentClient._get_agent_process_id. The directory is an
external collaborator, so the matches it returns for the resource id are
taken as input.  An empty result yields none; otherwise the key of the
first match is returned, and more than one match additionally emits the
inconsistency warning record (second component). -/
def get_agent_process_id (resource_id : String)
    (agent_procs : List AgentProcEntry) : Option String × List String :=
  match agent_procs with
  | [] => (none, [])
  | p :: rest =>
    let warns :=
      if rest.length > 0 then
        ["Inconsistency: More than one agent registered for resource_id=" ++
         resource_id]
      else []
    (some p.key, warns)

/-- Client-side state established by the ResourceAgentClient constructor:
the resource id it represents and the resolved target name. -/
structure ResourceAgentClientState where
  resource_id : String
  name : String
deriving DecidableEq, Repr

/-- Embeds ResourceAgentClient.__init__: assert the resource id is set;
when no name keyword argument is supplied, resolve the resource id through
the directory lookup, failing with NotFound when no agent process is
registered for it; otherwise use the first match as the target name.
Returns the client state and the warning records emitted by resolution. -/
def resource_agent_client_init (resource_id : String)
    (name_kwarg : Option String) (agent_procs : List AgentProcEntry) :
    Except AgentErr (ResourceAgentClientState × List String) :=
  if resource_id = "" then
    .error (.assertionError "resource_id must be set for an agent")
  else
    match name_kwarg with
    | some n => .ok ({ resource_id := resource_id, name := n }, [])
    | none =>
      match get_agent_process_id resource_id agent_procs with
      | (some pid, warns) =>
        .ok ({ resource_id := resource_id, name := pid }, warns)
      | (none, _) =>
        .error (.notFound ("No agent process found for resource_id " ++
                resource_id))

/-- True exactly on capability values tagged AGT_CMD. -/
def capIsAgtCmd : Value → Bool
  | .vcap c => c.cap_type == CapabilityType.AGT_CMD
  | _ => false

/-- True exactly on capability values tagged AGT_PAR. -/
def capIsAgtPar : Value → Bool
  | .vcap c => c.cap_type == CapabilityType.AGT_PAR
  | _ => false

/-- A concrete handler outcome used to exercise the dispatch paths: result
42, no transition, no records. -/
def wHandlerOut : HandlerOut :=
  { result := Value.vnat 42, next := none, log := [] }

/-- A concrete registered handler used to exercise the dispatch paths. -/
def wHandler : Handler :=
  fun _state _args _kwargs => wHandlerOut

/-- A concrete agent: the base construction with extra handlers for RUN,
GET_RESOURCE, SET_RESOURCE and EXECUTE_RESOURCE at IDLE, started in the
IDLE state. -/
def wAgent : ResourceAgentModel :=
  let fsm := construct_fsm "agent1"
  let fsm := fsm.add_handler ResourceAgentState.IDLE.str
      ResourceAgentEvent.RUN.str wHandler
  let fsm := fsm.add_handler ResourceAgentState.IDLE.str
      ResourceAgentEvent.GET_RESOURCE.str wHandler
  let fsm := fsm.add_handler ResourceAgentState.IDLE.str
      ResourceAgentEvent.SET_RESOURCE.str wHandler
  let fsm := fsm.add_handler ResourceAgentState.IDLE.str
      ResourceAgentEvent.EXECUTE_RESOURCE.str wHandler
  { id := "agent1", fsm := { fsm with current := ResourceAgentState.IDLE.str } }

/-- An event lookup misses whenever no table entry carries the event. -/
theorem lookup_none_of_no_event (hlist : List ((String × String) × Handler))
    (s e : String) (hno : ∀ p ∈ hlist, p.1.2 ≠ e) :
    List.lookup (s, e) hlist = none := by
  induction hlist with
  | nil => rfl
  | cons p rest ih =>
    have hp : p.1.2 ≠ e := hno p (by simp)
    have hb : ((s, e) == p.1) = false := by
      apply beq_eq_false_iff_ne.mpr
      intro hcontra
      exact hp (by rw [← hcontra])
    simp only [List.lookup, hb]
    exact ih (fun q hq => hno q (by simp [hq]))

/-- When GET_RESOURCE_CAPABILITIES has no handler at the current state,
get_capabilities reduces to the AGT_CMD-tagged agent command list and the
FSM is untouched. -/
theorem get_capabilities_eq_of_unregistered (a : ResourceAgentModel)
    (flag : Bool)
    (hnone : List.lookup
      (a.fsm.current, ResourceAgentEvent.GET_RESOURCE_CAPABILITIES.str)
      a.fsm.handlers = none) :
    get_capabilities a flag =
      ((a.fsm.get_events flag).map
        (fun e => Value.vcap { name := e, cap_type := CapabilityType.AGT_CMD }),
       a.fsm) := by
  simp [get_capabilities, InstrumentFSM.on_event, hnone]

/-- C1: for every non-null command with a non-empty name, execute_agent
builds a CommandResult carrying the command id and name, stamped with the
current timestamp and status 0, dispatches the command name as the FSM
event with the command args and kwargs, stores the handler return value in
the result payload and returns the CommandResult; when the FSM rejects the
event in the current state it raises Conflict carrying the FSM diagnostic
text. -/
theorem execute_agent_dispatch (a : ResourceAgentModel) (now : String)
    (c : AgentCommand) (hname : c.command ≠ "") :
    (∀ h : Handler,
      List.lookup (a.fsm.current, c.command) a.fsm.handlers = some h →
      execute_agent a now (some c) =
        .ok ({ command_id := c.command_id, command := c.command,
               ts_execute := now, status := 0,
               result := some (h a.fsm.current c.args c.kwargs).result },
             a.fsm.transitionTo (h a.fsm.current c.args c.kwargs).next)) ∧
    (List.lookup (a.fsm.current, c.command) a.fsm.handlers = none →
      execute_agent a now (some c) =
        .error (.conflict (fsmDiag a.fsm.current c.command))) := by
  constructor
  · intro h hl
    simp only [execute_agent, if_neg hname, InstrumentFSM.on_event, hl]
    cases hn : (h a.fsm.current c.args c.kwargs).next <;>
      simp [InstrumentFSM.transitionTo, hn]
  · intro hl
    simp [execute_agent, if_neg hname, InstrumentFSM.on_event, hl]

/-- C1 witness: on the concrete agent, executing the RUN command from IDLE
returns the stamped CommandResult holding the handler result 42 and leaves
the FSM as it was. -/
theorem execute_agent_dispatch_witness :
    ({ command_id := "cid1", command := "RESOURCE_AGENT_EVENT_RUN",
       args := [], kwargs := [] } : AgentCommand).command ≠ "" ∧
    List.lookup (wAgent.fsm.current, "RESOURCE_AGENT_EVENT_RUN")
      wAgent.fsm.handlers = some wHandler ∧
    execute_agent wAgent "ts0"
        (some { command_id := "cid1", command := "RESOURCE_AGENT_EVENT_RUN",
                args := [], kwargs := [] }) =
      .ok ({ command_id := "cid1", command := "RESOURCE_AGENT_EVENT_RUN",
             ts_execute := "ts0", status := 0,
             result := some (Value.vnat 42) },
           wAgent.fsm) := by
  refine ⟨by decide, rfl, ?_⟩
  exact (execute_agent_dispatch wAgent "ts0"
    { command_id := "cid1", command := "RESOURCE_AGENT_EVENT_RUN",
      args := [], kwargs := [] } (by decide)).1 wHandler rfl

/-- C2: execute_agent and execute_resource called with a missing command or
an empty command name fail with the BadRequest invalid-input signal, and
the outcome is the same for every agent, so no FSM interaction occurs and
the current state is unchanged. -/
theorem execute_ops_invalid_input (a : ResourceAgentModel) (now : String) :
    execute_agent a now none =
      .error (.badRequest "Execute argument \"command\" not set.") ∧
    execute_resource a now none =
      .error (.badRequest "Execute argument \"command\" not set.") ∧
    (∀ c : AgentCommand, c.command = "" →
      execute_agent a now (some c) =
        .error (.badRequest "Command name not set.") ∧
      execute_resource a now (some c) =
        .error (.badRequest "Command name not set.")) ∧
    (∀ a2 : ResourceAgentModel, ∀ c : AgentCommand, c.command = "" →
      execute_agent a now none = execute_agent a2 now none ∧
      execute_agent a now (some c) = execute_agent a2 now (some c) ∧
      execute_resource a now none = execute_resource a2 now none ∧
      execute_resource a now (some c) = execute_resource a2 now (some c)) := by
  refine ⟨rfl, rfl, ?_, ?_⟩
  · intro c hc
    constructor <;> simp [execute_agent, execute_resource, hc]
  · intro a2 c hc
    refine ⟨rfl, ?_, rfl, ?_⟩ <;> simp [execute_agent, execute_resource, hc]

/-- C2 witness: on the concrete agent, a missing command and an empty
command name are both rejected with BadRequest by both operations. -/
theorem execute_ops_invalid_input_witness :
    ({ command_id := "cid2", command := "", args := [],
       kwargs := [] } : AgentCommand).command = "" ∧
    execute_agent wAgent "t0" none =
      .error (.badRequest "Execute argument \"command\" not set.") ∧
    execute_resource wAgent "t0" none =
      .error (.badRequest "Execute argument \"command\" not set.") ∧
    execute_agent wAgent "t0"
        (some { command_id := "cid2", command := "", args := [], kwargs := [] }) =
      .error (.badRequest "Command name not set.") ∧
    execute_resource wAgent "t0"
        (some { command_id := "cid2", command := "", args := [], kwargs := [] }) =
      .error (.badRequest "Command name not set.") := by
  have h := execute_ops_invalid_input wAgent "t0"
  exact ⟨rfl, h.1, h.2.1, (h.2.2.1 _ rfl).1, (h.2.2.1 _ rfl).2⟩

/-- C3 counterexample input: supplying the unrecognized initial state
NOT_A_STATE leaves the _initial_state attribute unassigned (none), which is
not the UNINITIALIZED default the constructor is documented to fall back
to; only omitting the argument selects the default. -/
theorem select_initial_state_bug :
    select_initial_state (some "NOT_A_STATE") = none ∧
    select_initial_state (some "NOT_A_STATE") ≠
      some ResourceAgentState.UNINITIALIZED.str ∧
    select_initial_state none = some ResourceAgentState.UNINITIALIZED.str := by
  refine ⟨by decide, by decide, rfl⟩

/-- C4: when the current state has no handler for GET_RESOURCE_STATE, the
get_resource_state operation surfaces the raw FSMStateError of the engine
with its diagnostic, never a Conflict translation. -/
theorem get_resource_state_raw_error (a : ResourceAgentModel)
    (hnone : List.lookup
      (a.fsm.current, ResourceAgentEvent.GET_RESOURCE_STATE.str)
      a.fsm.handlers = none) :
    get_resource_state a =
      .error (.fsmStateError
        (fsmDiag a.fsm.current ResourceAgentEvent.GET_RESOURCE_STATE.str)) ∧
    ∀ args : List String, get_resource_state a ≠ .error (.conflict args) := by
  have h1 : get_resource_state a =
      .error (.fsmStateError
        (fsmDiag a.fsm.current ResourceAgentEvent.GET_RESOURCE_STATE.str)) := by
    simp [get_resource_state, InstrumentFSM.on_event, hnone]
  refine ⟨h1, ?_⟩
  intro args hcontra
  rw [h1] at hcontra
  simp at hcontra

/-- C4 witness: on the concrete agent at IDLE, GET_RESOURCE_STATE has no
handler and get_resource_state returns the raw FSMStateError diagnostic. -/
theorem get_resource_state_raw_error_witness :
    List.lookup (wAgent.fsm.current, ResourceAgentEvent.GET_RESOURCE_STATE.str)
      wAgent.fsm.handlers = none ∧
    get_resource_state wAgent =
      .error (.fsmStateError
        (fsmDiag wAgent.fsm.current ResourceAgentEvent.GET_RESOURCE_STATE.str)) :=
  ⟨rfl, (get_resource_state_raw_error wAgent rfl).1⟩

/-- C5: when the current state has no handler for
GET_RESOURCE_CAPABILITIES, get_capabilities still succeeds: the resource
capability portion degrades to the empty list, the returned list is exactly
the agent-level commands from the FSM event vocabulary (filtered to the
current state when the flag is true) tagged AGT_CMD, and the FSM is left
unchanged. -/
theorem get_capabilities_swallow (a : ResourceAgentModel) (flag : Bool)
    (hnone : List.lookup
      (a.fsm.current, ResourceAgentEvent.GET_RESOURCE_CAPABILITIES.str)
      a.fsm.handlers = none) :
    (get_capabilities a flag).1 =
      (a.fsm.get_events flag).map
        (fun e => Value.vcap { name := e, cap_type := CapabilityType.AGT_CMD }) ∧
    (get_capabilities a flag).2 = a.fsm := by
  rw [get_capabilities_eq_of_unregistered a flag hnone]
  exact ⟨rfl, rfl⟩

/-- C5 witness: on the concrete agent at IDLE, GET_RESOURCE_CAPABILITIES is
unregistered and the capability query returns exactly the AGT_CMD-tagged
agent command list for the current state. -/
theorem get_capabilities_swallow_witness :
    List.lookup (wAgent.fsm.current,
      ResourceAgentEvent.GET_RESOURCE_CAPABILITIES.str)
      wAgent.fsm.handlers = none ∧
    (get_capabilities wAgent true).1 =
      (wAgent.fsm.get_events true).map
        (fun e => Value.vcap { name := e, cap_type := CapabilityType.AGT_CMD }) :=
  ⟨rfl, (get_capabilities_swallow wAgent true rfl).1⟩

/-- C6: for every non-null command with a non-empty name, execute_resource
dispatches the EXECUTE_RESOURCE event with the command name as first
positional argument followed by the command args and kwargs, stamps the
handler result into the returned CommandResult, and re-signals an FSM
rejection as Conflict carrying the FSM diagnostic text. -/
theorem execute_resource_dispatch (a : ResourceAgentModel) (now : String)
    (c : AgentCommand) (hname : c.command ≠ "") :
    (∀ h : Handler,
      List.lookup (a.fsm.current, ResourceAgentEvent.EXECUTE_RESOURCE.str)
        a.fsm.handlers = some h →
      execute_resource a now (some c) =
        .ok ({ command_id := c.command_id, command := c.command,
               ts_execute := now, status := 0,
               result := some (h a.fsm.current
                 (Value.vstr c.command :: c.args) c.kwargs).result },
             a.fsm.transitionTo (h a.fsm.current
               (Value.vstr c.command :: c.args) c.kwargs).next)) ∧
    (List.lookup (a.fsm.current, ResourceAgentEvent.EXECUTE_RESOURCE.str)
        a.fsm.handlers = none →
      execute_resource a now (some c) =
        .error (.conflict
          (fsmDiag a.fsm.current ResourceAgentEvent.EXECUTE_RESOURCE.str))) := by
  constructor
  · intro h hl
    simp only [execute_resource, if_neg hname, InstrumentFSM.on_event, hl]
    cases hn : (h a.fsm.current (Value.vstr c.command :: c.args) c.kwargs).next <;>
      simp [InstrumentFSM.transitionTo, hn]
  · intro hl
    simp [execute_resource, if_neg hname, InstrumentFSM.on_event, hl]

/-- C6 witness: on the concrete agent at IDLE, executing the resource
command go dispatches EXECUTE_RESOURCE and returns the stamped
CommandResult holding the handler result 42. -/
theorem execute_resource_dispatch_witness :
    ({ command_id := "cid3", command := "go", args := [],
       kwargs := [] } : AgentCommand).command ≠ "" ∧
    List.lookup (wAgent.fsm.current, ResourceAgentEvent.EXECUTE_RESOURCE.str)
      wAgent.fsm.handlers = some wHandler ∧
    execute_resource wAgent "ts1"
        (some { command_id := "cid3", command := "go", args := [], kwargs := [] }) =
      .ok ({ command_id := "cid3", command := "go", ts_execute := "ts1",
             status := 0, result := some (Value.vnat 42) },
           wAgent.fsm) := by
  refine ⟨by decide, rfl, ?_⟩
  exact (execute_resource_dispatch wAgent "ts1"
    { command_id := "cid3", command := "go", args := [], kwargs := [] }
    (by decide)).1 wHandler rfl

/-- Looking up the key just stored by setHandlerEntry yields the stored
handler. -/
theorem lookup_setHandlerEntry_self (l : List ((String × String) × Handler))
    (k : String × String) (h : Handler) :
    List.lookup k (setHandlerEntry l k h) = some h := by
  induction l with
  | nil => simp [setHandlerEntry, List.lookup]
  | cons p rest ih =>
    by_cases hp : (p.1 == k) = true
    · simp [setHandlerEntry, hp, List.lookup]
    · have hk : (k == p.1) = false := by
        apply beq_eq_false_iff_ne.mpr
        intro hcontra
        exact hp (by simp [hcontra])
      simp [setHandlerEntry, hp, List.lookup, hk, ih]

/-- Looking up a different key is unaffected by setHandlerEntry. -/
theorem lookup_setHandlerEntry_ne (l : List ((String × String) × Handler))
    (k k2 : String × String) (h : Handler) (hne : k2 ≠ k) :
    List.lookup k2 (setHandlerEntry l k h) = List.lookup k2 l := by
  induction l with
  | nil => simp [setHandlerEntry, List.lookup, beq_eq_false_iff_ne.mpr hne]
  | cons p rest ih =>
    by_cases hp : (p.1 == k) = true
    · have hpk : p.1 = k := eq_of_beq hp
      have h2 : (k2 == k) = false := beq_eq_false_iff_ne.mpr hne
      have h2p : (k2 == p.1) = false := by rw [hpk]; exact h2
      simp [setHandlerEntry, hp, List.lookup, h2, h2p]
    · simp [setHandlerEntry, hp, List.lookup, ih]

/-- C7: for every constructed agent, the transition table registers, for
each of the eleven known agent states, both an ENTER and an EXIT handler,
and each registered handler reads the current state and emits the
observability record naming the agent and the state entered or left. -/
theorem construct_fsm_registers_all_states (agent_id : String)
    (s : ResourceAgentState) (args : List Value)
    (kwargs : List (String × Value)) :
    ∃ he hx : Handler,
      List.lookup (s.str, ResourceAgentEvent.ENTER.str)
        (construct_fsm agent_id).handlers = some he ∧
      List.lookup (s.str, ResourceAgentEvent.EXIT.str)
        (construct_fsm agent_id).handlers = some hx ∧
      (he s.str args kwargs).log =
        ["Resource agent " ++ agent_id ++ " entered state: " ++ s.str] ∧
      (hx s.str args kwargs).log =
        ["Resource agent " ++ agent_id ++ " leaving state: " ++ s.str] := by
  cases s <;>
    refine ⟨state_enter_handler agent_id, state_exit_handler agent_id,
      ?_, ?_, rfl, rfl⟩ <;>
    simp [construct_fsm, mkInstrumentFSM, InstrumentFSM.add_handler,
          ResourceAgentState.str, ResourceAgentEvent.str,
          lookup_setHandlerEntry_self, lookup_setHandlerEntry_ne]

/-- C8: client construction resolves the resource identifier through the
directory lookup: no registration yields the NotFound signal, and with one
or more registrations the first match becomes the target name, a second
registration only adding the logged inconsistency warning. -/
theorem client_init_resolution (rid : String) (hrid : rid ≠ "")
    (procs : List AgentProcEntry) :
    (procs = [] →
      resource_agent_client_init rid none procs =
        .error (.notFound ("No agent process found for resource_id " ++ rid))) ∧
    (∀ (p : AgentProcEntry) (rest : List AgentProcEntry), procs = p :: rest →
      resource_agent_client_init rid none procs =
        .ok ({ resource_id := rid, name := p.key },
             if rest.length > 0 then
               ["Inconsistency: More than one agent registered for resource_id="
                 ++ rid]
             else [])) := by
  constructor
  · intro h
    subst h
    simp [resource_agent_client_init, get_agent_process_id, hrid]
  · intro p rest h
    subst h
    simp [resource_agent_client_init, get_agent_process_id, hrid]

/-- C8 witness: with the resource id res1, an empty directory result fails
with NotFound, while two registrations resolve to the first key pid1 with
the inconsistency warning. -/
theorem client_init_resolution_witness :
    ("res1" : String) ≠ "" ∧
    resource_agent_client_init "res1" none [] =
      .error (.notFound ("No agent process found for resource_id " ++ "res1")) ∧
    resource_agent_client_init "res1" none
        [{ key := "pid1" }, { key := "pid2" }] =
      .ok ({ resource_id := "res1", name := "pid1" },
           if ([({ key := "pid2" } : AgentProcEntry)]).length > 0 then
             ["Inconsistency: More than one agent registered for resource_id="
               ++ "res1"]
           else []) := by
  refine ⟨by decide, ?_, ?_⟩
  · exact (client_init_resolution "res1" (by decide) []).1 rfl
  · exact (client_init_resolution "res1" (by decide)
      [{ key := "pid1" }, { key := "pid2" }]).2
      { key := "pid1" } [{ key := "pid2" }] rfl

/-- C9: at any current state where GET_RESOURCE has a registered handler,
get_resource invokes the handler but discards its return value and yields
None, while set_resource at a state with a SET_RESOURCE handler yields the
handler result. -/
theorem get_resource_discards_result (a : ResourceAgentModel) (params : Value)
    (hg hs : Handler)
    (hlg : List.lookup (a.fsm.current, ResourceAgentEvent.GET_RESOURCE.str)
      a.fsm.handlers = some hg)
    (hls : List.lookup (a.fsm.current, ResourceAgentEvent.SET_RESOURCE.str)
      a.fsm.handlers = some hs) :
    get_resource a params =
      .ok (Value.vnone,
           a.fsm.transitionTo (hg a.fsm.current [params] []).next) ∧
    set_resource a params =
      .ok ((hs a.fsm.current [params] []).result,
           a.fsm.transitionTo (hs a.fsm.current [params] []).next) := by
  constructor
  · simp only [get_resource, InstrumentFSM.on_event, hlg]
    cases hn : (hg a.fsm.current [params] []).next <;>
      simp [InstrumentFSM.transitionTo, hn]
  · simp only [set_resource, InstrumentFSM.on_event, hls]
    cases hn : (hs a.fsm.current [params] []).next <;>
      simp [InstrumentFSM.transitionTo, hn]

/-- C9 witness: on the concrete agent at IDLE, the shared handler returns
42, yet get_resource yields None while set_resource yields 42. -/
theorem get_resource_discards_result_witness :
    List.lookup (wAgent.fsm.current, ResourceAgentEvent.GET_RESOURCE.str)
      wAgent.fsm.handlers = some wHandler ∧
    List.lookup (wAgent.fsm.current, ResourceAgentEvent.SET_RESOURCE.str)
      wAgent.fsm.handlers = some wHandler ∧
    get_resource wAgent (Value.vstr "p") = .ok (Value.vnone, wAgent.fsm) ∧
    set_resource wAgent (Value.vstr "p") = .ok (Value.vnat 42, wAgent.fsm) := by
  have h := get_resource_discards_result wAgent (Value.vstr "p")
    wHandler wHandler rfl rfl
  exact ⟨rfl, rfl, h.1, h.2⟩

/-- C10: whenever the transition table has no entry for the
GET_RESOURCE_CAPABILITIES event, the capability list returned by
get_capabilities at either value of the current_state flag consists solely
of AGT_CMD-tagged entries and contains no AGT_PAR entry: the
agent-parameter capability list is hard-coded empty. -/
theorem get_capabilities_all_agt_cmd (a : ResourceAgentModel)
    (hno : ∀ p ∈ a.fsm.handlers,
      p.1.2 ≠ ResourceAgentEvent.GET_RESOURCE_CAPABILITIES.str) :
    ∀ flag : Bool,
      (get_capabilities a flag).1.all capIsAgtCmd = true ∧
      (get_capabilities a flag).1.all (fun v => !(capIsAgtPar v)) = true := by
  intro flag
  have hnone : List.lookup
      (a.fsm.current, ResourceAgentEvent.GET_RESOURCE_CAPABILITIES.str)
      a.fsm.handlers = none :=
    lookup_none_of_no_event a.fsm.handlers a.fsm.current _ hno
  rw [get_capabilities_eq_of_unregistered a flag hnone]
  constructor <;> simp [capIsAgtCmd, capIsAgtPar, List.all_eq_true]

/-- C10 witness: the concrete agent table has no
GET_RESOURCE_CAPABILITIES entry, and at flag true every returned capability
is AGT_CMD-tagged and none is AGT_PAR-tagged. -/
theorem get_capabilities_all_agt_cmd_witness :
    (∀ p ∈ wAgent.fsm.handlers,
      p.1.2 ≠ ResourceAgentEvent.GET_RESOURCE_CAPABILITIES.str) ∧
    (get_capabilities wAgent true).1.all capIsAgtCmd = true ∧
    (get_capabilities wAgent true).1.all (fun v => !(capIsAgtPar v)) = true := by
  have hno : ∀ p ∈ wAgent.fsm.handlers,
      p.1.2 ≠ ResourceAgentEvent.GET_RESOURCE_CAPABILITIES.str := by decide
  exact ⟨hno, get_capabilities_all_agt_cmd wAgent hno true⟩
